import Mathlib

/-
Verification of the agents-api Python client libraries (Sandbox, SandboxSet,
SandboxClaim Kubernetes custom-resource clients) against their specification.

The Python source is shallowly embedded: each client operation becomes a pure
Lean function that computes the request actually handed to the underlying
Kubernetes `CustomObjectsApi` call, stateful iteration (watch streams, the
wait-for-condition polling loop) becomes structural recursion over explicit
event lists, and exception control flow becomes explicit result types.
-/

namespace AgentsApi

/-- JSON-like value: the Python dictionaries passed as request bodies. -/
inductive JValue where
  | str : String → JValue
  | int : Int → JValue
  | bool : Bool → JValue
  | obj : List (String × JValue) → JValue
  | arr : List JValue → JValue

/-- Embeds the Python idiom `ns = namespace or self.namespace` used by every
operation of `BaseCustomResourceClient` (base_client.py): `None` and the empty
string are falsy in Python, so both fall back to the client default. -/
def resolveNamespace (arg : Option String) (defaultNs : String) : String :=
  match arg with
  | none => defaultNs
  | some s => if s == "" then defaultNs else s

/-- The state of `BaseCustomResourceClient` after `__init__` (base_client.py
lines 19-44): the resource coordinate. The Python attribute `namespace` is the
field `ns` (namespace is a Lean keyword). -/
structure BaseCustomResourceClient where
  api_group : String
  api_version : String
  plural : String
  ns : String

/-- A request to the underlying Kubernetes `CustomObjectsApi`: `api_function`
names the Python method invoked, the remaining fields are the keyword
arguments that the client passes to it (`none` when the client does not pass
the keyword). For `delete_namespaced_custom_object` the Python body is a
`V1DeleteOptions` carrying only `grace_period_seconds`, recorded here in the
`grace_period_seconds` field. -/
structure ApiCall where
  api_function : String
  group : String
  version : String
  ns : String
  plural : String
  name : Option String
  body : Option JValue
  grace_period_seconds : Option Int
  label_selector : Option String
  field_selector : Option String
  timeout_seconds : Option Int
  content_type : Option String

/-- `BaseCustomResourceClient.create_resource` (base_client.py lines 46-68). -/
def create_resource (c : BaseCustomResourceClient) (body : JValue)
    (namespaceArg : Option String) : ApiCall :=
  { api_function := "create_namespaced_custom_object"
    group := c.api_group
    version := c.api_version
    ns := resolveNamespace namespaceArg c.ns
    plural := c.plural
    name := none
    body := some body
    grace_period_seconds := none
    label_selector := none
    field_selector := none
    timeout_seconds := none
    content_type := none }

/-- `BaseCustomResourceClient.get_resource` (base_client.py lines 70-92). -/
def get_resource (c : BaseCustomResourceClient) (name : String)
    (namespaceArg : Option String) : ApiCall :=
  { api_function := "get_namespaced_custom_object"
    group := c.api_group
    version := c.api_version
    ns := resolveNamespace namespaceArg c.ns
    plural := c.plural
    name := some name
    body := none
    grace_period_seconds := none
    label_selector := none
    field_selector := none
    timeout_seconds := none
    content_type := none }

/-- `BaseCustomResourceClient.update_resource` (base_client.py lines 94-118). -/
def update_resource (c : BaseCustomResourceClient) (name : String)
    (body : JValue) (namespaceArg : Option String) : ApiCall :=
  { api_function := "patch_namespaced_custom_object"
    group := c.api_group
    version := c.api_version
    ns := resolveNamespace namespaceArg c.ns
    plural := c.plural
    name := some name
    body := some body
    grace_period_seconds := none
    label_selector := none
    field_selector := none
    timeout_seconds := none
    content_type := none }

/-- `BaseCustomResourceClient.update_resource_status` (base_client.py lines
120-144). -/
def update_resource_status (c : BaseCustomResourceClient) (name : String)
    (body : JValue) (namespaceArg : Option String) : ApiCall :=
  { api_function := "patch_namespaced_custom_object_status"
    group := c.api_group
    version := c.api_version
    ns := resolveNamespace namespaceArg c.ns
    plural := c.plural
    name := some name
    body := some body
    grace_period_seconds := none
    label_selector := none
    field_selector := none
    timeout_seconds := none
    content_type := none }

/-- `BaseCustomResourceClient.delete_resource` (base_client.py lines 146-175). -/
def delete_resource (c : BaseCustomResourceClient) (name : String)
    (namespaceArg : Option String) (grace : Option Int) : ApiCall :=
  { api_function := "delete_namespaced_custom_object"
    group := c.api_group
    version := c.api_version
    ns := resolveNamespace namespaceArg c.ns
    plural := c.plural
    name := some name
    body := none
    grace_period_seconds := grace
    label_selector := none
    field_selector := none
    timeout_seconds := none
    content_type := none }

/-- `BaseCustomResourceClient.list_resources` (base_client.py lines 177-200). -/
def list_resources (c : BaseCustomResourceClient) (namespaceArg : Option String)
    (labelSel fieldSel : Option String) : ApiCall :=
  { api_function := "list_namespaced_custom_object"
    group := c.api_group
    version := c.api_version
    ns := resolveNamespace namespaceArg c.ns
    plural := c.plural
    name := none
    body := none
    grace_period_seconds := none
    label_selector := labelSel
    field_selector := fieldSel
    timeout_seconds := none
    content_type := none }

/-- The list request `BaseCustomResourceClient.watch_resources` hands to
`watch.Watch().stream` (base_client.py lines 202-231). -/
def watch_resources_call (c : BaseCustomResourceClient)
    (namespaceArg : Option String) (labelSel fieldSel : Option String)
    (timeoutSeconds : Option Int) : ApiCall :=
  { api_function := "list_namespaced_custom_object"
    group := c.api_group
    version := c.api_version
    ns := resolveNamespace namespaceArg c.ns
    plural := c.plural
    name := none
    body := none
    grace_period_seconds := none
    label_selector := labelSel
    field_selector := fieldSel
    timeout_seconds := timeoutSeconds
    content_type := none }

/-- `BaseCustomResourceClient.patch_resource` (base_client.py lines 237-266);
the Python `content_type` parameter defaults to
`application/merge-patch+json` at call sites that omit it. -/
def patch_resource (c : BaseCustomResourceClient) (name : String)
    (body : JValue) (namespaceArg : Option String)
    (contentType : String) : ApiCall :=
  { api_function := "patch_namespaced_custom_object"
    group := c.api_group
    version := c.api_version
    ns := resolveNamespace namespaceArg c.ns
    plural := c.plural
    name := some name
    body := some body
    grace_period_seconds := none
    label_selector := none
    field_selector := none
    timeout_seconds := none
    content_type := some contentType }

/-- `BaseCustomResourceClient.delete_collection_resources` (base_client.py
lines 268-291). -/
def delete_collection_resources (c : BaseCustomResourceClient)
    (namespaceArg : Option String) (labelSel fieldSel : Option String) : ApiCall :=
  { api_function := "delete_collection_namespaced_custom_object"
    group := c.api_group
    version := c.api_version
    ns := resolveNamespace namespaceArg c.ns
    plural := c.plural
    name := none
    body := none
    grace_period_seconds := none
    label_selector := labelSel
    field_selector := fieldSel
    timeout_seconds := none
    content_type := none }

/-- The watch request issued by `BaseCustomResourceClient.
wait_for_resource_condition` (base_client.py lines 315-319): it resolves
`ns = namespace or self.namespace` itself and then calls
`watch_resources(namespace=ns, field_selector=f"metadata.name={name}")`. -/
def wait_for_resource_condition_call (c : BaseCustomResourceClient)
    (name : String) (namespaceArg : Option String) : ApiCall :=
  watch_resources_call c (some (resolveNamespace namespaceArg c.ns)) none
    (some ("metadata.name=" ++ name)) none

/-- Constant from constants.py. -/
def SANDBOX_API_GROUP : String := "agents.kruise.io"

/-- Constant from constants.py. -/
def SANDBOX_API_VERSION : String := "v1alpha1"

/-- Constant from constants.py. -/
def SANDBOX_PLURAL : String := "sandboxes"

/-- Constant from constants.py. -/
def SANDBOXSET_API_GROUP : String := "agents.kruise.io"

/-- Constant from constants.py. -/
def SANDBOXSET_API_VERSION : String := "v1alpha1"

/-- Constant from constants.py. -/
def SANDBOXSET_PLURAL : String := "sandboxsets"

/-- Constant from constants.py. -/
def DEFAULT_NAMESPACE : String := "default"

/-- `SandboxClient.__init__` (agents_api sandbox_client.py lines 32-40). -/
def sandboxClient (ns : String) : BaseCustomResourceClient :=
  { api_group := SANDBOX_API_GROUP
    api_version := SANDBOX_API_VERSION
    plural := SANDBOX_PLURAL
    ns := ns }

/-- `SandboxSetClient.__init__` (agents_api sandboxset_client.py lines 33-41). -/
def sandboxSetClient (ns : String) : BaseCustomResourceClient :=
  { api_group := SANDBOXSET_API_GROUP
    api_version := SANDBOXSET_API_VERSION
    plural := SANDBOXSET_PLURAL
    ns := ns }

/-- Outcome of the underlying transport call made by `get_resource`: either
the resource document, or an `ApiException` carrying an HTTP status code. -/
inductive ApiOutcome where
  | ok : JValue → ApiOutcome
  | apiException : Nat → ApiOutcome

/-- Result of `get_sandbox` / `get_sandboxset` as seen by the caller: the
document, a resource-specific not-found exception carrying its message, or a
re-raised generic `ApiException`. -/
inductive GetResult where
  | ok : JValue → GetResult
  | sandboxNotFound : String → GetResult
  | sandboxSetNotFound : String → GetResult
  | apiException : Nat → GetResult

/-- Message of the `SandboxNotFoundException` raised by `SandboxClient.
get_sandbox` (sandbox_client.py line 80): the f-string
`Sandbox '{name}' not found in namespace '{ns}'`. -/
def sandboxNotFoundMessage (name ns : String) : String :=
  "Sandbox '" ++ name ++ "' not found in namespace '" ++ ns ++ "'"

/-- Message of the `SandboxSetNotFoundException` raised by `SandboxSetClient.
get_sandboxset` (sandboxset_client.py line 81). -/
def sandboxSetNotFoundMessage (name ns : String) : String :=
  "SandboxSet '" ++ name ++ "' not found in namespace '" ++ ns ++ "'"

/-- `SandboxClient.get_sandbox` (sandbox_client.py lines 59-81), as a function
of the transport outcome of the underlying `get_resource` call: a 404
`ApiException` is translated to `SandboxNotFoundException`, every other
`ApiException` is re-raised unchanged. -/
def get_sandbox (c : BaseCustomResourceClient) (name : String)
    (namespaceArg : Option String) (transport : ApiOutcome) : GetResult :=
  let ns := resolveNamespace namespaceArg c.ns
  match transport with
  | .ok doc => .ok doc
  | .apiException status =>
    if status == 404 then .sandboxNotFound (sandboxNotFoundMessage name ns)
    else .apiException status

/-- `SandboxSetClient.get_sandboxset` (sandboxset_client.py lines 60-82). -/
def get_sandboxset (c : BaseCustomResourceClient) (name : String)
    (namespaceArg : Option String) (transport : ApiOutcome) : GetResult :=
  let ns := resolveNamespace namespaceArg c.ns
  match transport with
  | .ok doc => .ok doc
  | .apiException status =>
    if status == 404 then .sandboxSetNotFound (sandboxSetNotFoundMessage name ns)
    else .apiException status

/-- A condition dictionary inside `status.conditions`; the fields mirror
`condition.get('type')` / `condition.get('status')`, which yield `None` when
the key is absent. -/
structure Condition where
  type : Option String
  status : Option String
deriving DecidableEq

/-- The `status` sub-document of a resource; `conditions` is `none` when the
key `'conditions'` is absent from it. -/
structure ResourceStatus where
  conditions : Option (List Condition)
deriving DecidableEq

/-- A resource document as inspected by `wait_for_resource_condition`:
`status` is `none` when the key `'status'` is absent. -/
structure Resource where
  status : Option ResourceStatus
deriving DecidableEq

/-- A watch event `{type, object}` as produced by the Kubernetes watch stream
(spec data model: type is ADDED, MODIFIED, DELETED or ERROR). Both keys are
always present on events from the watcher, so the Python `event.get("type")`
and `event['object']` are embedded as total fields. -/
structure WatchEvent where
  type : String
  object : Resource
deriving DecidableEq

/-- The event sequence `BaseCustomResourceClient.watch_resources` yields to
its consumer (base_client.py lines 222-235), as a function of the sequence of
events arriving on the underlying stream: each event is yielded, and the
loop breaks right after yielding an event whose type is `"ERROR"`. -/
def watch_resources_stream : List WatchEvent → List WatchEvent
  | [] => []
  | e :: rest =>
    if e.type == "ERROR" then [e] else e :: watch_resources_stream rest

/-- The per-condition test of `wait_for_resource_condition` (base_client.py
lines 325-326): `condition.get('type') == condition_type and
condition.get('status') == condition_status`. -/
def conditionMatches (conditionType conditionStatus : String)
    (c : Condition) : Bool :=
  c.type == some conditionType && c.status == some conditionStatus

/-- The per-event test of `wait_for_resource_condition` (base_client.py lines
322-327): the resource has a `status` with a `conditions` list containing a
condition matching the requested (type, status) pair. -/
def resourceHasCondition (conditionType conditionStatus : String)
    (r : Resource) : Bool :=
  match r.status with
  | none => false
  | some st =>
    match st.conditions with
    | none => false
    | some conds => conds.any (conditionMatches conditionType conditionStatus)

/-- Outcome of `wait_for_resource_condition`: the resource on a match, or one
of its two `TimeoutError` raises — `timeoutDeadline` for "Timeout waiting for
condition ..." (base_client.py line 330) and `timeoutNotObserved` for
"Unable to find resource ..." at stream end (line 333). -/
inductive WaitResult where
  | found : Resource → WaitResult
  | timeoutDeadline : WaitResult
  | timeoutNotObserved : WaitResult
deriving DecidableEq

/-- Both `TimeoutError` outcomes of `wait_for_resource_condition`. -/
def WaitResult.isTimeout : WaitResult → Bool
  | .found _ => false
  | .timeoutDeadline => true
  | .timeoutNotObserved => true

/-- Default of the `timeout` parameter of `wait_for_resource_condition`
(base_client.py line 295): 300 seconds; `end_time = time.time() + timeout`. -/
def wait_default_timeout : Nat := 300

/-- The event loop of `BaseCustomResourceClient.wait_for_resource_condition`
(base_client.py lines 316-333). Each watch event is paired with the value the
`time.time()` call at the deadline check (line 329) would return while that
event is processed; `end_time` is computed before the loop. In stream order:
if the event's object carries a matching condition the object is returned
(checked before the deadline); otherwise, if the clock now exceeds
`end_time`, the deadline `TimeoutError` is raised; when the stream ends
without a match, the not-observed `TimeoutError` is raised. -/
def wait_for_resource_condition (conditionType conditionStatus : String)
    (endTime : Nat) : List (WatchEvent × Nat) → WaitResult
  | [] => .timeoutNotObserved
  | (event, now) :: rest =>
    if resourceHasCondition conditionType conditionStatus event.object then
      .found event.object
    else if endTime < now then .timeoutDeadline
    else wait_for_resource_condition conditionType conditionStatus endTime rest

/-- `SandboxSetClient.scale_sandboxset` (sandboxset_client.py lines 238-266):
builds the patch body `{"spec": {"replicas": replicas}}` and calls
`patch_namespaced_custom_object` directly (no content type argument). -/
def scale_sandboxset (c : BaseCustomResourceClient) (name : String)
    (replicas : Int) (namespaceArg : Option String) : ApiCall :=
  { api_function := "patch_namespaced_custom_object"
    group := c.api_group
    version := c.api_version
    ns := resolveNamespace namespaceArg c.ns
    plural := c.plural
    name := some name
    body := some (JValue.obj [("spec", JValue.obj [("replicas", JValue.int replicas)])])
    grace_period_seconds := none
    label_selector := none
    field_selector := none
    timeout_seconds := none
    content_type := none }

/-- The `spec` sub-document of a stored SandboxSet as read by
`get_sandboxset_replicas`; `replicas` is `none` when the key is absent. -/
structure SandboxSetSpec where
  replicas : Option Int
deriving DecidableEq

/-- A stored SandboxSet document as read by `get_sandboxset_replicas`;
`spec` is `none` when the key is absent. -/
structure SandboxSetDoc where
  spec : Option SandboxSetSpec
deriving DecidableEq

/-- `SandboxSetClient.get_sandboxset_replicas` (sandboxset_client.py lines
268-282), as a function of the fetched document:
`spec = sandboxset.get('spec', {})` then `spec.get('replicas', 0)`. -/
def get_sandboxset_replicas (doc : SandboxSetDoc) : Int :=
  match doc.spec with
  | none => 0
  | some sp =>
    match sp.replicas with
    | none => 0
    | some n => n

/-- A Python runtime value as stored in a pydantic model field: the openkruise
create helpers assign either a plain string or — through a trailing comma in
the assignment statement — a one-element tuple of a string. -/
inductive PyVal where
  | str : String → PyVal
  | tuple : List PyVal → PyVal

/-- The mutable fields the openkruise create helpers assign before
serializing, over a pydantic model whose remaining content is `rest`
(untouched by the helpers). -/
structure PydanticModelFields (α : Type) where
  apiVersion : PyVal
  kind : PyVal
  rest : α

/-- The string `f"{self.group}/{self.version}"` of the openkruise clients:
group `agents.kruise.io`, version `v1alpha1`. -/
def openkruiseApiVersion : String := "agents.kruise.io" ++ "/" ++ "v1alpha1"

/-- The assignments performed by `SandboxClient.create_sandbox`
(openkruise/agents/sandbox_client.py lines 18-20):
`sandbox.apiVersion = f"{self.group}/{self.version}"` and
`sandbox.kind = self.kind` with kind `"Sandbox"` — plain string assignments,
no trailing commas. -/
def create_sandbox_assign {α : Type} (m : PydanticModelFields α) :
    PydanticModelFields α :=
  { m with
    apiVersion := PyVal.str openkruiseApiVersion
    kind := PyVal.str "Sandbox" }

/-- The assignments performed by `SandboxSetClient.create_sandboxset`
(openkruise/agents/sandboxset_client.py lines 18-20):
`sandboxset.apiVersion = f"{self.group}/{self.version}",` and
`sandboxset.kind = self.kind,` — both statements end in a trailing comma, so
in Python each right-hand side is a one-element tuple, not a string. -/
def create_sandboxset_assign {α : Type} (m : PydanticModelFields α) :
    PydanticModelFields α :=
  { m with
    apiVersion := PyVal.tuple [PyVal.str openkruiseApiVersion]
    kind := PyVal.tuple [PyVal.str "SandboxSet"] }

/-- The assignments performed by `SandboxClaimClient.create_sandboxclaim`
(openkruise/agents/sandbox_claim_client.py lines 19-21):
`sandbox_claim.apiVersion = f"{self.group}/{self.version}",` and
`sandbox_claim.kind = self.kind,` — both with trailing commas, hence
one-element tuples. -/
def create_sandboxclaim_assign {α : Type} (m : PydanticModelFields α) :
    PydanticModelFields α :=
  { m with
    apiVersion := PyVal.tuple [PyVal.str openkruiseApiVersion]
    kind := PyVal.tuple [PyVal.str "SandboxClaim"] }

/-- A `Ready=True` condition, used as concrete test data. -/
def readyCondition : Condition :=
  { type := some "Ready", status := some "True" }

/-- A resource whose status carries the `Ready=True` condition. -/
def readyResource : Resource :=
  { status := some { conditions := some [readyCondition] } }

/-- A resource document with no `status` key. -/
def emptyResource : Resource :=
  { status := none }

/-- A `MODIFIED` watch event carrying `readyResource`. -/
def lateMatchEvent : WatchEvent :=
  { type := "MODIFIED", object := readyResource }

/-- An `ADDED` watch event carrying a status-less resource. -/
def addedEvent : WatchEvent :=
  { type := "ADDED", object := emptyResource }

/-- An `ERROR` watch event. -/
def errorEvent : WatchEvent :=
  { type := "ERROR", object := emptyResource }

/-- A pydantic model value before the create helpers touch it. -/
def blankModel : PydanticModelFields Unit :=
  { apiVersion := PyVal.str "", kind := PyVal.str "", rest := () }

theorem resolveNamespace_none (d : String) : resolveNamespace none d = d := rfl

theorem resolveNamespace_empty (d : String) :
    resolveNamespace (some "") d = d := by
  simp [resolveNamespace]

theorem resolveNamespace_some_of_ne (s d : String) (h : s ≠ "") :
    resolveNamespace (some s) d = s := by
  simp [resolveNamespace, h]

theorem resolveNamespace_idem (a : Option String) (d : String) :
    resolveNamespace (some (resolveNamespace a d)) d = resolveNamespace a d := by
  cases a with
  | none => simp [resolveNamespace]
  | some s =>
    by_cases h : s == ""
    · simp [resolveNamespace, h]
    · simp [resolveNamespace, h]

/-- Claim C1: a 404 transport error on `get_sandbox` / `get_sandboxset` is
raised as the resource-specific not-found exception whose message carries the
resource name and the resolved namespace (never a generic `ApiException`),
and every transport error whose status is not 404 propagates unchanged. -/
theorem get_not_found_translation (c : BaseCustomResourceClient)
    (name : String) (namespaceArg : Option String) (status : Nat) :
    (status = 404 →
      get_sandbox c name namespaceArg (.apiException status) =
        .sandboxNotFound
          (sandboxNotFoundMessage name (resolveNamespace namespaceArg c.ns)) ∧
      get_sandboxset c name namespaceArg (.apiException status) =
        .sandboxSetNotFound
          (sandboxSetNotFoundMessage name (resolveNamespace namespaceArg c.ns)) ∧
      (∀ s, get_sandbox c name namespaceArg (.apiException status) ≠
        .apiException s) ∧
      (∀ s, get_sandboxset c name namespaceArg (.apiException status) ≠
        .apiException s) ∧
      (∃ u v w, sandboxNotFoundMessage name (resolveNamespace namespaceArg c.ns) =
        u ++ name ++ v ++ resolveNamespace namespaceArg c.ns ++ w) ∧
      (∃ u v w, sandboxSetNotFoundMessage name (resolveNamespace namespaceArg c.ns) =
        u ++ name ++ v ++ resolveNamespace namespaceArg c.ns ++ w)) ∧
    (status ≠ 404 →
      get_sandbox c name namespaceArg (.apiException status) =
        .apiException status ∧
      get_sandboxset c name namespaceArg (.apiException status) =
        .apiException status) := by
  constructor
  · intro h
    subst h
    refine ⟨rfl, rfl, ?_, ?_, ?_, ?_⟩
    · intro s hs
      simp [get_sandbox, sandboxNotFoundMessage] at hs
    · intro s hs
      simp [get_sandboxset, sandboxSetNotFoundMessage] at hs
    · exact ⟨"Sandbox '", "' not found in namespace '", "'", rfl⟩
    · exact ⟨"SandboxSet '", "' not found in namespace '", "'", rfl⟩
  · intro h
    exact ⟨by simp [get_sandbox, h], by simp [get_sandboxset, h]⟩

/-- Witness for C1 at concrete inputs: status 404 and status 500. -/
theorem get_not_found_translation_witness :
    get_sandbox (sandboxClient DEFAULT_NAMESPACE) "mybox" none
        (.apiException 404) =
      .sandboxNotFound (sandboxNotFoundMessage "mybox" "default") ∧
    get_sandboxset (sandboxSetClient DEFAULT_NAMESPACE) "myset" (some "team-a")
        (.apiException 404) =
      .sandboxSetNotFound (sandboxSetNotFoundMessage "myset" "team-a") ∧
    get_sandbox (sandboxClient DEFAULT_NAMESPACE) "mybox" none
        (.apiException 500) = .apiException 500 :=
  ⟨((get_not_found_translation (sandboxClient DEFAULT_NAMESPACE) "mybox"
      none 404).1 rfl).1,
   ((get_not_found_translation (sandboxSetClient DEFAULT_NAMESPACE) "myset"
      (some "team-a") 404).1 rfl).2.1,
   ((get_not_found_translation (sandboxClient DEFAULT_NAMESPACE) "mybox"
      none 500).2 (by decide)).1⟩

/-- Claim C5: `scale_sandboxset` sends a patch whose body is exactly
`{"spec": {"replicas": replicas}}`, through `patch_namespaced_custom_object`. -/
theorem scale_patch_body_exact (c : BaseCustomResourceClient) (name : String)
    (replicas : Int) (namespaceArg : Option String) :
    (scale_sandboxset c name replicas namespaceArg).body =
      some (JValue.obj [("spec", JValue.obj [("replicas", JValue.int replicas)])]) ∧
    (scale_sandboxset c name replicas namespaceArg).api_function =
      "patch_namespaced_custom_object" :=
  ⟨rfl, rfl⟩

/-- Claim C6: `get_sandboxset_replicas` returns the integer stored at
`spec.replicas` when present, and 0 when `spec` or `spec.replicas` is absent. -/
theorem get_replicas_spec (doc : SandboxSetDoc) (sp : SandboxSetSpec) (n : Int) :
    (doc.spec = some sp → sp.replicas = some n →
      get_sandboxset_replicas doc = n) ∧
    (doc.spec = none → get_sandboxset_replicas doc = 0) ∧
    (doc.spec = some sp → sp.replicas = none →
      get_sandboxset_replicas doc = 0) := by
  refine ⟨?_, ?_, ?_⟩
  · intro h1 h2
    simp [get_sandboxset_replicas, h1, h2]
  · intro h1
    simp [get_sandboxset_replicas, h1]
  · intro h1 h2
    simp [get_sandboxset_replicas, h1, h2]

/-- Witness for C6 at concrete documents. -/
theorem get_replicas_spec_witness :
    get_sandboxset_replicas { spec := some { replicas := some 5 } } = 5 ∧
    get_sandboxset_replicas { spec := none } = 0 ∧
    get_sandboxset_replicas { spec := some { replicas := none } } = 0 :=
  ⟨(get_replicas_spec ⟨some ⟨some 5⟩⟩ ⟨some 5⟩ 5).1 rfl rfl,
   (get_replicas_spec ⟨none⟩ ⟨none⟩ 0).2.1 rfl,
   (get_replicas_spec ⟨some ⟨none⟩⟩ ⟨none⟩ 0).2.2 rfl rfl⟩

/-- Claim C9: passing the empty string as the per-call namespace argument does
not override the default — every operation of the base client then targets
the client's configured namespace, because the Python resolution
`namespace or self.namespace` treats `""` as falsy. -/
theorem empty_namespace_uses_default (c : BaseCustomResourceClient)
    (body : JValue) (name contentType : String)
    (grace : Option Int) (labelSel fieldSel : Option String)
    (timeoutSeconds : Option Int) :
    (create_resource c body (some "")).ns = c.ns ∧
    (get_resource c name (some "")).ns = c.ns ∧
    (update_resource c name body (some "")).ns = c.ns ∧
    (update_resource_status c name body (some "")).ns = c.ns ∧
    (delete_resource c name (some "") grace).ns = c.ns ∧
    (list_resources c (some "") labelSel fieldSel).ns = c.ns ∧
    (watch_resources_call c (some "") labelSel fieldSel timeoutSeconds).ns = c.ns ∧
    (patch_resource c name body (some "") contentType).ns = c.ns ∧
    (delete_collection_resources c (some "") labelSel fieldSel).ns = c.ns ∧
    (wait_for_resource_condition_call c name (some "")).ns = c.ns := by
  have h0 : resolveNamespace (some "") c.ns = c.ns := resolveNamespace_empty c.ns
  have hw : (wait_for_resource_condition_call c name (some "")).ns = c.ns := by
    show resolveNamespace (some (resolveNamespace (some "") c.ns)) c.ns = c.ns
    rw [resolveNamespace_idem, h0]
  exact ⟨h0, h0, h0, h0, h0, h0, h0, h0, h0, hw⟩

theorem watch_error_is_last (events : List WatchEvent) :
    ∀ i ev, (watch_resources_stream events)[i]? = some ev →
      ev.type = "ERROR" → i + 1 = (watch_resources_stream events).length := by
  induction events with
  | nil =>
    intro i ev hget
    simp [watch_resources_stream] at hget
  | cons e rest ih =>
    intro i ev hget hty
    by_cases he : e.type == "ERROR"
    · rw [watch_resources_stream, if_pos he] at hget ⊢
      cases i with
      | zero => rfl
      | succ j => simp at hget
    · rw [watch_resources_stream, if_neg he] at hget ⊢
      cases i with
      | zero =>
        simp at hget
        subst hget
        exact absurd hty (by simpa using he)
      | succ j =>
        simp only [List.getElem?_cons_succ] at hget
        have := ih j ev hget hty
        simp only [List.length_cons]
        omega

theorem watch_no_error_id (events : List WatchEvent)
    (h : ∀ e ∈ events, e.type ≠ "ERROR") :
    watch_resources_stream events = events := by
  induction events with
  | nil => rfl
  | cons e rest ih =>
    have he : ¬ (e.type == "ERROR") := by
      simpa using h e (List.mem_cons_self _ _)
    rw [watch_resources_stream, if_neg he,
      ih (fun x hx => h x (List.mem_cons_of_mem _ hx))]

/-- Claim C7: the sequence yielded by `watch_resources` never contains an
event after one of type `ERROR` — an `ERROR` event, if yielded, is the last
item — and when no `ERROR` event arrives the whole arriving stream is
yielded (the sequence continues until the server closes the stream). -/
theorem watch_stops_after_error (events : List WatchEvent) :
    (∀ i ev, (watch_resources_stream events)[i]? = some ev →
      ev.type = "ERROR" →
      i + 1 = (watch_resources_stream events).length) ∧
    ((∀ e ∈ events, e.type ≠ "ERROR") →
      watch_resources_stream events = events) :=
  ⟨watch_error_is_last events, fun h => watch_no_error_id events h⟩

/-- Witness for C7: a stream whose second event is an `ERROR` (yielded at the
final position), and an error-free stream yielded whole. -/
theorem watch_stops_after_error_witness :
    1 + 1 = (watch_resources_stream [addedEvent, errorEvent]).length ∧
    watch_resources_stream [addedEvent, lateMatchEvent] =
      [addedEvent, lateMatchEvent] :=
  ⟨(watch_stops_after_error [addedEvent, errorEvent]).1 1 errorEvent
      (by decide) (by decide),
   (watch_stops_after_error [addedEvent, lateMatchEvent]).2 (by decide)⟩

/-- Claim C10: when the arriving stream contains an `ERROR` event, the
sequence yielded by `watch_resources` is the error-free prefix followed by
the first `ERROR` event itself: that event is delivered to the consumer as
the final item, not swallowed. -/
theorem watch_delivers_error_event (events : List WatchEvent)
    (h : ∃ e ∈ events, e.type = "ERROR") :
    ∃ err pre, watch_resources_stream events = pre ++ [err] ∧
      err.type = "ERROR" ∧ err ∈ events ∧
      ∀ e ∈ pre, e.type ≠ "ERROR" := by
  induction events with
  | nil =>
    obtain ⟨e, he, _⟩ := h
    exact absurd he (List.not_mem_nil e)
  | cons e rest ih =>
    by_cases he : e.type == "ERROR"
    · refine ⟨e, [], ?_, ?_, List.mem_cons_self _ _, ?_⟩
      · rw [watch_resources_stream, if_pos he]
        rfl
      · simpa using he
      · intro x hx
        exact absurd hx (List.not_mem_nil x)
    · have he' : e.type ≠ "ERROR" := by simpa using he
      have hrest : ∃ x ∈ rest, x.type = "ERROR" := by
        obtain ⟨x, hx, hxe⟩ := h
        rcases List.mem_cons.mp hx with hx1 | hx2
        · exact absurd (hx1 ▸ hxe) he'
        · exact ⟨x, hx2, hxe⟩
      obtain ⟨err, pre, heq, herrty, herrmem, hpre⟩ := ih hrest
      refine ⟨err, e :: pre, ?_, herrty, List.mem_cons_of_mem _ herrmem, ?_⟩
      · rw [watch_resources_stream, if_neg he, heq]
        rfl
      · intro x hx
        rcases List.mem_cons.mp hx with hx1 | hx2
        · exact hx1 ▸ he'
        · exact hpre x hx2

/-- Witness for C10 at a concrete stream with an `ERROR` event in the middle. -/
theorem watch_delivers_error_event_witness :
    ∃ err pre,
      watch_resources_stream [addedEvent, errorEvent, lateMatchEvent] =
        pre ++ [err] ∧
      err.type = "ERROR" ∧
      err ∈ [addedEvent, errorEvent, lateMatchEvent] ∧
      ∀ e ∈ pre, e.type ≠ "ERROR" :=
  watch_delivers_error_event [addedEvent, errorEvent, lateMatchEvent]
    ⟨errorEvent, by decide, by decide⟩

/-- Counterexample to C2 as stated: with deadline `end_time = 10`, a stream
whose single event is observed at clock reading 11 — after the deadline — and
carries the matching `Ready=True` condition. No event matches within the
timeout budget and the deadline passes before any match, yet
`wait_for_resource_condition` returns the resource instead of raising
`TimeoutError`, because the match test on each event runs before the deadline
test. -/
theorem wait_timeout_claim_counterexample :
    wait_for_resource_condition "Ready" "True" 10 [(lateMatchEvent, 11)] =
      .found readyResource ∧
    (wait_for_resource_condition "Ready" "True" 10
      [(lateMatchEvent, 11)]).isTimeout = false := by
  constructor <;> rfl

/-- Claim C2 (amended): `wait_for_resource_condition` raises one of its two
`TimeoutError`s whenever no event on the stream carries a matching condition
— the deadline error at the first non-matching event processed after the
deadline, the not-observed error when the stream ends — but a matching event
is returned even when it is observed after the deadline, since the match test
precedes the deadline test and the deadline is only checked when an event
arrives. In particular an empty stream (resource never observed) raises the
not-observed `TimeoutError`. -/
theorem wait_no_match_times_out (conditionType conditionStatus : String)
    (endTime : Nat) (events : List (WatchEvent × Nat))
    (h : ∀ p ∈ events,
      resourceHasCondition conditionType conditionStatus p.1.object = false) :
    (wait_for_resource_condition conditionType conditionStatus endTime
      events).isTimeout = true ∧
    wait_for_resource_condition conditionType conditionStatus endTime [] =
      .timeoutNotObserved := by
  refine ⟨?_, rfl⟩
  induction events with
  | nil => rfl
  | cons p rest ih =>
    obtain ⟨event, now⟩ := p
    have hev := h (event, now) (List.mem_cons_self _ _)
    by_cases hn : endTime < now
    · simp [wait_for_resource_condition, hev, hn, WaitResult.isTimeout]
    · have ihr := ih (fun q hq => h q (List.mem_cons_of_mem _ hq))
      simpa [wait_for_resource_condition, hev, hn] using ihr

/-- Witness for the amended C2: a non-matching event within the deadline
raises a `TimeoutError`. -/
theorem wait_no_match_times_out_witness :
    (wait_for_resource_condition "Ready" "True" 10
      [(addedEvent, 5)]).isTimeout = true ∧
    wait_for_resource_condition "Ready" "True" 10 [] = .timeoutNotObserved :=
  wait_no_match_times_out "Ready" "True" 10 [(addedEvent, 5)] (by decide)

/-- Counterexample to C3 as stated: the stream contains a matching event (the
second one, observed at clock reading 12), but the first event — which does
not match — is processed after the deadline `end_time = 10`, so
`wait_for_resource_condition` raises the deadline `TimeoutError` instead of
returning the matching event's resource document. -/
theorem wait_first_match_claim_counterexample :
    wait_for_resource_condition "Ready" "True" 10
      [(addedEvent, 11), (lateMatchEvent, 12)] = .timeoutDeadline ∧
    ∀ r, wait_for_resource_condition "Ready" "True" 10
      [(addedEvent, 11), (lateMatchEvent, 12)] ≠ .found r := by
  refine ⟨rfl, ?_⟩
  intro r hr
  rw [show wait_for_resource_condition "Ready" "True" 10
      [(addedEvent, 11), (lateMatchEvent, 12)] = .timeoutDeadline from rfl] at hr
  exact WaitResult.noConfusion hr

/-- Claim C3 (amended): for every stream containing an event whose object
carries a `status.conditions` entry matching the requested (type, status)
pair, `wait_for_resource_condition` inspects `status.conditions` of each
event's object in stream order and returns the first matching event's
resource document — provided every earlier event is observed at or before the
deadline (otherwise the deadline `TimeoutError` preempts the match). -/
theorem wait_returns_first_match_within_deadline
    (conditionType conditionStatus : String) (endTime : Nat)
    (pre : List (WatchEvent × Nat)) (event : WatchEvent) (t : Nat)
    (rest : List (WatchEvent × Nat))
    (hpre : ∀ p ∈ pre,
      resourceHasCondition conditionType conditionStatus p.1.object = false)
    (htime : ∀ p ∈ pre, p.2 ≤ endTime)
    (hmatch : resourceHasCondition conditionType conditionStatus
      event.object = true) :
    wait_for_resource_condition conditionType conditionStatus endTime
      (pre ++ (event, t) :: rest) = .found event.object := by
  revert hpre htime
  induction pre with
  | nil =>
    intro hpre htime
    simp [wait_for_resource_condition, hmatch]
  | cons p ps ih =>
    intro hpre htime
    obtain ⟨e1, t1⟩ := p
    have h1 := hpre (e1, t1) (List.mem_cons_self _ _)
    have h2 := htime (e1, t1) (List.mem_cons_self _ _)
    have hn : ¬ endTime < t1 := not_lt.mpr h2
    have ihr := ih (fun q hq => hpre q (List.mem_cons_of_mem _ hq))
      (fun q hq => htime q (List.mem_cons_of_mem _ hq))
    simpa [wait_for_resource_condition, h1, hn] using ihr

/-- Witness for the amended C3: one non-matching event within the deadline,
then the matching event (here even observed after the deadline, at 20) —
the matching event's document is returned. -/
theorem wait_returns_first_match_within_deadline_witness :
    wait_for_resource_condition "Ready" "True" 10
      [(addedEvent, 5), (lateMatchEvent, 20)] = .found readyResource :=
  wait_returns_first_match_within_deadline "Ready" "True" 10
    [(addedEvent, 5)] lateMatchEvent 20 [] (by decide) (by decide) (by decide)

/-- Claim C4, evaluated at a concrete input model: `create_sandbox` sets the
serialized `apiVersion`/`kind` to the claimed strings, but `create_sandboxset`
and `create_sandboxclaim` — whose assignment statements end in trailing
commas — set them to one-element Python tuples instead of the strings the
claim (and spec section 4.2) require. -/
theorem create_helpers_tuple_assignment_bug :
    (create_sandbox_assign blankModel).apiVersion =
      PyVal.str "agents.kruise.io/v1alpha1" ∧
    (create_sandbox_assign blankModel).kind = PyVal.str "Sandbox" ∧
    (create_sandboxset_assign blankModel).apiVersion =
      PyVal.tuple [PyVal.str "agents.kruise.io/v1alpha1"] ∧
    (create_sandboxset_assign blankModel).apiVersion ≠
      PyVal.str "agents.kruise.io/v1alpha1" ∧
    (create_sandboxset_assign blankModel).kind ≠ PyVal.str "SandboxSet" ∧
    (create_sandboxclaim_assign blankModel).apiVersion =
      PyVal.tuple [PyVal.str "agents.kruise.io/v1alpha1"] ∧
    (create_sandboxclaim_assign blankModel).apiVersion ≠
      PyVal.str "agents.kruise.io/v1alpha1" ∧
    (create_sandboxclaim_assign blankModel).kind ≠ PyVal.str "SandboxClaim" :=
  ⟨rfl, rfl, rfl, fun h => PyVal.noConfusion h, fun h => PyVal.noConfusion h,
   rfl, fun h => PyVal.noConfusion h, fun h => PyVal.noConfusion h⟩

/-- Counterexample to C8 as stated: the empty string is a provided per-call
namespace argument, yet the request targets the client's default namespace
`"default"`, not the provided `""`, because `namespace or self.namespace`
treats `""` as falsy. -/
theorem namespace_override_counterexample :
    (create_resource (sandboxClient DEFAULT_NAMESPACE) (JValue.obj [])
      (some "")).ns = "default" ∧
    (create_resource (sandboxClient DEFAULT_NAMESPACE) (JValue.obj [])
      (some "")).ns ≠ "" := by
  refine ⟨?_, ?_⟩
  · simpa using resolveNamespace_empty "default"
  · intro h
    have h2 : "default" = "" := by
      simpa using (resolveNamespace_empty "default").symm.trans h
    exact absurd h2 (by decide)

/-- Claim C8 (amended): for every operation of the base client, a provided
non-empty per-call namespace argument makes the request target that
namespace, and an absent argument makes it target the client's configured
default (a provided empty string also falls back to the default). -/
theorem namespace_resolution_amended (c : BaseCustomResourceClient)
    (body : JValue) (name contentType s : String)
    (grace : Option Int) (labelSel fieldSel : Option String)
    (timeoutSeconds : Option Int) (h : s ≠ "") :
    (create_resource c body (some s)).ns = s ∧
    (get_resource c name (some s)).ns = s ∧
    (update_resource c name body (some s)).ns = s ∧
    (update_resource_status c name body (some s)).ns = s ∧
    (delete_resource c name (some s) grace).ns = s ∧
    (list_resources c (some s) labelSel fieldSel).ns = s ∧
    (watch_resources_call c (some s) labelSel fieldSel timeoutSeconds).ns = s ∧
    (patch_resource c name body (some s) contentType).ns = s ∧
    (delete_collection_resources c (some s) labelSel fieldSel).ns = s ∧
    (wait_for_resource_condition_call c name (some s)).ns = s ∧
    (create_resource c body none).ns = c.ns ∧
    (get_resource c name none).ns = c.ns ∧
    (update_resource c name body none).ns = c.ns ∧
    (update_resource_status c name body none).ns = c.ns ∧
    (delete_resource c name none grace).ns = c.ns ∧
    (list_resources c none labelSel fieldSel).ns = c.ns ∧
    (watch_resources_call c none labelSel fieldSel timeoutSeconds).ns = c.ns ∧
    (patch_resource c name body none contentType).ns = c.ns ∧
    (delete_collection_resources c none labelSel fieldSel).ns = c.ns ∧
    (wait_for_resource_condition_call c name none).ns = c.ns := by
  have hs : resolveNamespace (some s) c.ns = s :=
    resolveNamespace_some_of_ne s c.ns h
  have hws : (wait_for_resource_condition_call c name (some s)).ns = s := by
    show resolveNamespace (some (resolveNamespace (some s) c.ns)) c.ns = s
    rw [resolveNamespace_idem, hs]
  have hwn : (wait_for_resource_condition_call c name none).ns = c.ns := by
    show resolveNamespace (some (resolveNamespace none c.ns)) c.ns = c.ns
    rw [resolveNamespace_idem, resolveNamespace_none]
  exact ⟨hs, hs, hs, hs, hs, hs, hs, hs, hs, hws,
    rfl, rfl, rfl, rfl, rfl, rfl, rfl, rfl, rfl, hwn⟩

/-- Witness for the amended C8 at a concrete client and namespace. -/
theorem namespace_resolution_amended_witness :
    (create_resource (sandboxClient "default") (JValue.obj [])
      (some "team-a")).ns = "team-a" ∧
    (get_resource (sandboxClient "default") "mybox" (some "team-a")).ns =
      "team-a" ∧
    (update_resource (sandboxClient "default") "mybox" (JValue.obj [])
      (some "team-a")).ns = "team-a" ∧
    (update_resource_status (sandboxClient "default") "mybox" (JValue.obj [])
      (some "team-a")).ns = "team-a" ∧
    (delete_resource (sandboxClient "default") "mybox" (some "team-a")
      none).ns = "team-a" ∧
    (list_resources (sandboxClient "default") (some "team-a") none none).ns =
      "team-a" ∧
    (watch_resources_call (sandboxClient "default") (some "team-a") none none
      none).ns = "team-a" ∧
    (patch_resource (sandboxClient "default") "mybox" (JValue.obj [])
      (some "team-a") "application/merge-patch+json").ns = "team-a" ∧
    (delete_collection_resources (sandboxClient "default") (some "team-a")
      none none).ns = "team-a" ∧
    (wait_for_resource_condition_call (sandboxClient "default") "mybox"
      (some "team-a")).ns = "team-a" ∧
    (create_resource (sandboxClient "default") (JValue.obj []) none).ns =
      "default" ∧
    (get_resource (sandboxClient "default") "mybox" none).ns = "default" ∧
    (update_resource (sandboxClient "default") "mybox" (JValue.obj [])
      none).ns = "default" ∧
    (update_resource_status (sandboxClient "default") "mybox" (JValue.obj [])
      none).ns = "default" ∧
    (delete_resource (sandboxClient "default") "mybox" none none).ns =
      "default" ∧
    (list_resources (sandboxClient "default") none none none).ns = "default" ∧
    (watch_resources_call (sandboxClient "default") none none none none).ns =
      "default" ∧
    (patch_resource (sandboxClient "default") "mybox" (JValue.obj []) none
      "application/merge-patch+json").ns = "default" ∧
    (delete_collection_resources (sandboxClient "default") none none
      none).ns = "default" ∧
    (wait_for_resource_condition_call (sandboxClient "default") "mybox"
      none).ns = "default" :=
  namespace_resolution_amended (sandboxClient "default") (JValue.obj [])
    "mybox" "application/merge-patch+json" "team-a" none none none none
    (by decide)

end AgentsApi
